import Mathlib

/-!
Verification of the tgsecret login/session-management component.

Shallow embedding of:
- `bot/session_creator.py` (`SessionCreator`: start_login, verify_code,
  verify_2fa, get_user_info, disconnect),
- `bot/handlers.py` (the login `ConversationHandler` step functions and
  `check_subscription`),
- `bot/admin_commands.py` (`parse_channel_id`),
- `main.py` (`run_userbot_for_user`, `start_userbot_for_user_background`).

Network and file-system behaviour is supplied by explicit environment
records: each field describes what the corresponding underlying library
call would do (return normally or raise a given exception).  Python
`except` clauses become pattern matches on those outcomes; an exception
the source does not catch surfaces as `Except.error`.
-/

/-- Exceptions the Telethon layer can raise (`telethon.errors` plus a
generic `Exception`, modelled by `other`). -/
inductive Exn where
  | phoneCodeInvalid
  | phoneCodeExpired
  | sessionPasswordNeeded
  | passwordHashInvalid
  | floodWait (seconds : Nat)
  | phoneNumberInvalid
  | phoneNumberBanned
  | other (msg : String)
deriving DecidableEq, Repr

/-- Model of Python `str(e)` for the exceptions above (texts as in the
Telethon library; only `other` ever reaches a message-content check). -/
def errStr : Exn → String
  | .phoneCodeInvalid => "The phone code entered was invalid"
  | .phoneCodeExpired => "The confirmation code has expired"
  | .sessionPasswordNeeded => "Two-steps verification is enabled and a password is required"
  | .passwordHashInvalid => "The password (and thus its hash value) you entered is invalid"
  | .floodWait s => "A wait of " ++ toString s ++ " seconds is required"
  | .phoneNumberInvalid => "The phone number is invalid"
  | .phoneNumberBanned => "The used phone number has been banned from Telegram"
  | .other m => m

/-! ### Python string helpers (over `List Char`) -/

/-- Python `str.strip()`: drop whitespace from both ends. -/
def pyStrip (l : List Char) : List Char :=
  ((l.dropWhile Char.isWhitespace).reverse.dropWhile Char.isWhitespace).reverse

/-- Characters before the first occurrence of `c` (used for Python
`s.split(c)[0]`). -/
def takeUntilCh (c : Char) (l : List Char) : List Char :=
  l.takeWhile (fun x => x != c)

/-- Python `sep in s`: contiguous-substring test. -/
def pyContains (sep : List Char) : List Char → Bool
  | [] => sep.isEmpty
  | c :: rest => sep.isPrefixOf (c :: rest) || pyContains sep rest

/-- Suffix after the first occurrence of `sep` (`s.split(sep)[1]` up to
the next occurrence; combined with `takeUntilCh` this matches the
source's `split(sep)[1].split("/")[0]` because both separators used in
the source end in `'/'`). -/
def pySplitAfter (sep : List Char) : List Char → List Char
  | [] => []
  | c :: rest =>
    if sep.isPrefixOf (c :: rest) then (c :: rest).drop sep.length
    else pySplitAfter sep rest

/-- Python `str.lower()` (ASCII model; all characters the source
compares against are ASCII). -/
def lowerChars (s : String) : List Char := s.toList.map Char.toLower

/-- Python `needle in hay.lower()` for an ASCII needle. -/
def pyInLower (needle : String) (hay : String) : Bool :=
  pyContains needle.toList (lowerChars hay)

/-- Python truthiness of an optional string (`None` and `""` are falsy). -/
def truthyStr : Option String → Bool
  | none => false
  | some s => !s.isEmpty

/-! ### SessionCreator state and environment -/

/-- In-memory state of one `SessionCreator` plus the bits of the outside
world it owns: the authorization status of the underlying Telethon
session and the on-disk session (credential) file for this user. -/
structure SessionCreatorSt where
  hasClient : Bool
  phone_number : Option String
  phone_code_hash : Option String
  /-- whether the underlying session has completed sign-in (credential
  usable by the userbot) -/
  authorized : Bool
  /-- whether the on-disk `session_<id>.session` file exists -/
  sessionFile : Bool
deriving DecidableEq, Repr

/-- A `SessionCreator` as `__init__` leaves it (no client, no phone, no
challenge hash). -/
def freshSC : SessionCreatorSt :=
  { hasClient := false, phone_number := none, phone_code_hash := none
    authorized := false, sessionFile := false }

/-- Outcomes of the underlying Telethon calls made by the
`SessionCreator` operations: each field is what the call would do if
executed (`.error e` = raise `e`). -/
structure NetEnv where
  /-- `client.connect()` inside `start_login` -/
  connectStart : Except Exn Unit
  /-- `client.send_code_request(phone)` inside `start_login`
  (returns `sent_code.phone_code_hash`) -/
  sendCodeStart : Except Exn String
  /-- `client.is_connected()` inside `verify_code` -/
  isConnected : Bool
  /-- `client.connect()` inside `verify_code` -/
  connect : Except Exn Unit
  /-- `client.sign_in(phone, code, phone_code_hash)` -/
  signIn : Except Exn Unit
  /-- `client.send_code_request(phone)` inside the resend handlers -/
  resend : Except Exn String
  /-- `client.sign_in(password=...)` inside `verify_2fa` -/
  signInPwd : Except Exn Unit
  /-- `client.get_me()` as `(id, first, last, username, phone)` -/
  getMe : Except Exn (Nat × String × Option String × Option String × Option String)
  /-- truthiness of `client.session` inside `disconnect` -/
  hasSession : Bool
  /-- `client.session.save()` inside `disconnect` -/
  saveRes : Except Exn Unit
  /-- `await client.disconnect()` inside `disconnect` -/
  discRes : Except Exn Unit

/-- Network calls actually issued by `verify_code` (used to state that a
path makes no network call). -/
inductive NetCall where
  | connect
  | signIn
  | sendCode
deriving DecidableEq, Repr

/-! ### SessionCreator operations (from `bot/session_creator.py`) -/

/-- `start_login`'s phone cleaning: `strip()` then remove every `' '`
and `'-'`. -/
def cleanPhone (s : String) : String :=
  String.mk ((pyStrip s.toList).filter (fun c => !(c == ' ' || c == '-')))

/-- Messages of `start_login` (emoji prefixes of the source kept as the
intended characters; they never influence a branch condition). -/
def msgCodeSent : String := "✅ Tasdiqlash kodi yuborildi! Iltimos, kelgan kodni kiriting."

def msgPhoneInvalid : String :=
  "❌ Noto\x27g\x27ri telefon formati. Xalqaro formatda kiriting (masalan, +998901234567)."

def msgPhoneBanned : String := "❌ Bu telefon raqami Telegram\x27da bloklangan."

def msgFloodStart (s : Nat) : String :=
  "❌ Juda ko\x27p urinish. " ++ toString s ++ " soniya kutib qaytadan urinib ko\x27ring."

def msgGenericError (e : Exn) : String := "❌ Error: " ++ errStr e

def msgSessionEnded : String := "❌ Sessiya tugadi. /start bilan qaytadan boshlang."

def msgDigitsOnly : String := "❌ Faqat raqamlarni kiriting."

def msgCodeOk : String := "✅ Muvaffaqiyatli kirildi! Sessiya yaratildi."

def msg2faNeeded : String :=
  "🔐 Ikki bosqichli autentifikatsiya yoqilgan. 2FA parolingizni kiriting."

def msgInvalidResent : String := "❌ Noto\x27g\x27ri kod. Yangi kod yuborildi! Yangi kodni kiriting."

def msgInvalidRetry : String := "❌ Noto\x27g\x27ri kod. Qaytadan urinib ko\x27ring."

def msgExpiredResent : String := "⏰ Kod eskirdi. Yangi kod yuborildi! Yangi kodni kiriting."

def msgExpiredCancel : String := "❌ Kod eskirdi. \x27Cancel\x27 bosib qaytadan boshlang."

def msgFloodVerify (s : Nat) : String :=
  "❌ Juda ko\x27p urinish. " ++ toString s ++ " soniya kuting."

def msg2faSessionEnded : String := "❌ Sessiya tugadi. Qaytadan boshlang."

def msg2faOk : String := "✅ 2FA bilan muvaffaqiyatli kirildi! Sessiya yaratildi."

def msgPwdWrong : String := "❌ Noto\x27g\x27ri parol. Qaytadan urinib ko\x27ring."

/-- The `try` body of `start_login` after client creation: `connect`
then `send_code_request`; first exception propagates to the `except`
clauses. -/
def tryStart (env : NetEnv) : Except Exn String :=
  match env.connectStart with
  | .error e => .error e
  | .ok _ =>
    match env.sendCodeStart with
    | .error e => .error e
    | .ok h => .ok h

/-- `SessionCreator.start_login`.  Sets `phone_number`, (re)creates the
client after deleting the old session file, then requests a code.  The
inner `disconnect` of a pre-existing client swallows its exceptions
(`except Exception: pass`) and changes no modelled state, so it does not
appear.  Every exception of the body is caught by an `except` clause,
hence every branch is `.ok`. -/
def start_login (sc : SessionCreatorSt) (env : NetEnv) (phone : String) :
    Except Exn (SessionCreatorSt × Bool × String) :=
  let sc1 : SessionCreatorSt :=
    { sc with phone_number := some (cleanPhone phone), sessionFile := false, hasClient := true }
  match tryStart env with
  | .ok h => .ok ({ sc1 with phone_code_hash := some h }, true, msgCodeSent)
  | .error .phoneNumberInvalid => .ok (sc1, false, msgPhoneInvalid)
  | .error .phoneNumberBanned => .ok (sc1, false, msgPhoneBanned)
  | .error (.floodWait s) => .ok (sc1, false, msgFloodStart s)
  | .error e => .ok (sc1, false, msgGenericError e)

/-- The `try` body of `verify_code` from the connectivity check to
`sign_in`, together with the network calls it issued. -/
def tryVerify (env : NetEnv) : Except Exn Unit × List NetCall :=
  if env.isConnected then
    (env.signIn, [NetCall.signIn])
  else
    match env.connect with
    | .error e => (.error e, [NetCall.connect])
    | .ok _ => (env.signIn, [NetCall.connect, NetCall.signIn])

/-- The `except` clauses of `verify_code` (exception → new state, result
triple, extra network calls from the automatic resend). -/
def verifyExcHandler (sc : SessionCreatorSt) (env : NetEnv) :
    Exn → SessionCreatorSt × (Bool × String × Bool) × List NetCall
  | .sessionPasswordNeeded => (sc, (true, msg2faNeeded, true), [])
  | .phoneCodeInvalid =>
    match env.resend with
    | .ok h => ({ sc with phone_code_hash := some h }, (false, msgInvalidResent, false), [.sendCode])
    | .error _ => (sc, (false, msgInvalidRetry, false), [.sendCode])
  | .phoneCodeExpired =>
    match env.resend with
    | .ok h => ({ sc with phone_code_hash := some h }, (false, msgExpiredResent, false), [.sendCode])
    | .error _ => (sc, (false, msgExpiredCancel, false), [.sendCode])
  | .floodWait s => (sc, (false, msgFloodVerify s, false), [])
  | e => (sc, (false, msgGenericError e, false), [])

/-- `SessionCreator.verify_code`.  Guard on client/phone/hash truthiness,
strip non-digits, local empty check, then `sign_in` with the `except`
clauses above.  Every branch is `.ok`: the source catches every
exception of the body. -/
def verify_code (sc : SessionCreatorSt) (env : NetEnv) (code : String) :
    Except Exn (SessionCreatorSt × (Bool × String × Bool) × List NetCall) :=
  if !(sc.hasClient && truthyStr sc.phone_number && truthyStr sc.phone_code_hash) then
    .ok (sc, (false, msgSessionEnded, false), [])
  else
    let digits := code.toList.filter Char.isDigit
    if digits.isEmpty then
      .ok (sc, (false, msgDigitsOnly, false), [])
    else
      match tryVerify env with
      | (.ok _, tr) =>
        .ok ({ sc with authorized := true, sessionFile := true }, (true, msgCodeOk, false), tr)
      | (.error e, tr) =>
        let (sc', res, tr') := verifyExcHandler sc env e
        .ok (sc', res, tr ++ tr')

/-- `SessionCreator.verify_2fa`. -/
def verify_2fa (sc : SessionCreatorSt) (env : NetEnv) :
    Except Exn (SessionCreatorSt × Bool × String) :=
  if !sc.hasClient then .ok (sc, false, msg2faSessionEnded)
  else
    match env.signInPwd with
    | .ok _ => .ok ({ sc with authorized := true, sessionFile := true }, true, msg2faOk)
    | .error .passwordHashInvalid => .ok (sc, false, msgPwdWrong)
    | .error (.floodWait s) => .ok (sc, false, msgFloodVerify s)
    | .error e => .ok (sc, false, msgGenericError e)

/-- `SessionCreator.get_user_info`: `None` without a client, the
normalized dict on success, `None` on any exception. -/
def get_user_info (sc : SessionCreatorSt) (env : NetEnv) :
    Except Exn (Option (Nat × String × String × String × String)) :=
  if !sc.hasClient then .ok none
  else
    match env.getMe with
    | .ok (i, f, l, u, p) => .ok (some (i, f, l.getD "", u.getD "", p.getD ""))
    | .error _ => .ok none

/-- `SessionCreator.disconnect`.  The source has NO try/except here: an
exception from `session.save()` or `client.disconnect()` propagates to
the caller, so those paths are `.error`.  When nothing raises, the
client is dropped and phone/hash are cleared. -/
def sc_disconnect (sc : SessionCreatorSt) (env : NetEnv) :
    Except Exn SessionCreatorSt :=
  if sc.hasClient then
    match (if env.hasSession then env.saveRes else .ok ()) with
    | .error e => .error e
    | .ok _ =>
      match env.discRes with
      | .error e => .error e
      | .ok _ =>
        .ok { sc with hasClient := false, phone_number := none, phone_code_hash := none }
  else
    .ok { sc with phone_number := none, phone_code_hash := none }

/-! ### Conversation controller (from `bot/handlers.py`) -/

/-- Conversation states of the login flow.  `terminated` stands for
`ConversationHandler.END`. -/
inductive ConvState where
  | awaitingPhone
  | awaitingCode
  | awaiting2fa
  | terminated
deriving DecidableEq, Repr

/-- Per-(user, chat) conversation: current state plus this user's
`session_creators` registry entry. -/
structure ConvWorld where
  state : ConvState
  creator : Option SessionCreatorSt
deriving DecidableEq, Repr

/-- One conversation input: a text message (handled by the state's
message handler) or the cancel fallback.  The `NetEnv` describes what
the network would do during this step. -/
inductive Event where
  | msg (text : String) (env : NetEnv)
  | cancel (env : NetEnv)

/-- `get_session_creator`: reuse the registry entry or create a fresh
one. -/
def getCreator (w : ConvWorld) : SessionCreatorSt := w.creator.getD freshSC

/-- `cancel_callback`: disconnect the creator and drop the registry
entry.  If `disconnect` raises, the callback dies before returning END
and the conversation stays in its current state (python-telegram-bot
keeps the previous state when a callback raises). -/
def cancelStep (s : ConvState) (sc : SessionCreatorSt) (env : NetEnv) : ConvWorld :=
  match sc_disconnect sc env with
  | .ok _ => { state := .terminated, creator := none }
  | .error _ => { state := s, creator := some sc }

/-- `phone_received`: `start_login`, then WAITING_CODE on success or
remove-and-END on failure. -/
def phoneStep (sc : SessionCreatorSt) (env : NetEnv) (text : String) : ConvWorld :=
  match start_login sc env text with
  | .ok (sc', true, _) => { state := .awaitingCode, creator := some sc' }
  | .ok (sc', false, _) =>
    let _ := sc'
    { state := .terminated, creator := none }
  | .error _ => { state := .awaitingPhone, creator := some sc }

/-- `code_received`: branch on `needs_2fa`, then `success`, then the
`"expired" in message.lower()` check; otherwise stay in WAITING_CODE.
The success branch indexes `user_info["first_name"]` (crashes when
`get_user_info` returned `None`) and awaits `disconnect` (crashes when
it raises); a crashed callback leaves the conversation state where it
was. -/
def codeStep (sc : SessionCreatorSt) (env : NetEnv) (text : String) : ConvWorld :=
  match verify_code sc env text with
  | .ok (sc', (success, message, needs2fa), _) =>
    if needs2fa then { state := .awaiting2fa, creator := some sc' }
    else if success then
      match get_user_info sc' env with
      | .ok (some _) =>
        match sc_disconnect sc' env with
        | .ok _ => { state := .terminated, creator := none }
        | .error _ => { state := .awaitingCode, creator := some sc' }
      | _ => { state := .awaitingCode, creator := some sc' }
    else if pyInLower "expired" message then
      match sc_disconnect sc' env with
      | .ok _ => { state := .terminated, creator := none }
      | .error _ => { state := .awaitingCode, creator := some sc' }
    else { state := .awaitingCode, creator := some sc' }
  | .error _ => { state := .awaitingCode, creator := some sc }

/-- `password_received`: terminate on success, stay in WAITING_2FA on
failure (crash handling as in `codeStep`). -/
def pwdStep (sc : SessionCreatorSt) (env : NetEnv) : ConvWorld :=
  match verify_2fa sc env with
  | .ok (sc', true, _) =>
    match get_user_info sc' env with
    | .ok (some _) =>
      match sc_disconnect sc' env with
      | .ok _ => { state := .terminated, creator := none }
      | .error _ => { state := .awaiting2fa, creator := some sc' }
    | _ => { state := .awaiting2fa, creator := some sc' }
  | .ok (sc', false, _) => { state := .awaiting2fa, creator := some sc' }
  | .error _ => { state := .awaiting2fa, creator := some sc }

/-- One step of the login conversation: route the event to the handler
registered for the current state (`get_login_conversation_handler`).
After END no handler of this conversation runs. -/
def convStep (w : ConvWorld) (e : Event) : ConvWorld :=
  match w.state with
  | .terminated => w
  | s =>
    match e with
    | .cancel env => cancelStep s (getCreator w) env
    | .msg text env =>
      match s with
      | .awaitingPhone => phoneStep (getCreator w) env text
      | .awaitingCode => codeStep (getCreator w) env text
      | .awaiting2fa => pwdStep (getCreator w) env
      | .terminated => w

/-- States a single step may lead to from a given state (the transition
relation of the controller). -/
def allowedNext : ConvState → List ConvState
  | .awaitingPhone => [.awaitingPhone, .awaitingCode, .terminated]
  | .awaitingCode => [.awaitingCode, .awaiting2fa, .terminated]
  | .awaiting2fa => [.awaiting2fa, .terminated]
  | .terminated => [.terminated]

/-- Progress rank of a conversation state. -/
def convRank : ConvState → Nat
  | .awaitingPhone => 0
  | .awaitingCode => 1
  | .awaiting2fa => 2
  | .terminated => 3

/-! ### Subscription gate (`check_subscription` in `bot/handlers.py`) -/

/-- What `bot.get_chat_member` does for one channel: return a member
status or raise with a message. -/
inductive MemberRes where
  | status (s : String)
  | exc (msg : String)

/-- `member.status in ["member", "administrator", "creator"]`. -/
def isMemberStatus (s : String) : Bool :=
  s == "member" || s == "administrator" || s == "creator"

/-- Classification of a checker exception as a bot-side error
(`chat not found` / `not enough rights` / `administrator` in the
lowercased text). -/
def isBotSideError (msg : String) : Bool :=
  pyInLower "chat not found" msg || pyInLower "chat_not_found" msg ||
  pyInLower "not enough rights" msg || pyInLower "administrator" msg

/-- The loop body of `check_subscription`: accumulate
`(missing_channels, bot_errors)` in order. -/
def subLoop (env : String → MemberRes) (acc : List String × List String)
    (ch : String) : List String × List String :=
  match env ch with
  | .status s => if isMemberStatus s then acc else (acc.1 ++ [ch], acc.2)
  | .exc m => if isBotSideError m then (acc.1, acc.2 ++ [ch]) else acc

/-- `check_subscription`: allow-all when no channels are configured;
after the loop, any bot-side error short-circuits to `(True, None)`
before missing channels are considered. -/
def check_subscription (channels : List String) (env : String → MemberRes) :
    Bool × Option (List String) :=
  if channels.isEmpty then (true, none)
  else
    let acc := channels.foldl (subLoop env) ([], [])
    if !acc.2.isEmpty then (true, none)
    else if !acc.1.isEmpty then (false, some acc.1)
    else (true, none)

/-! ### `parse_channel_id` (from `bot/admin_commands.py`) -/

/-- `"t.me/"` (the `TELEGRAM_URL` constant). -/
def tmeLit : List Char := ['t', '.', 'm', 'e', '/']

/-- `"/c/"`. -/
def slashCLit : List Char := ['/', 'c', '/']

/-- `parse_channel_id`: strip, then branch on `t.me/` and `/c/`
occurrence, else prefix `@` unless the input already starts with `-` or
`@`. -/
def parse_channel_id (s : List Char) : List Char :=
  let text := pyStrip s
  if pyContains tmeLit text then
    if pyContains slashCLit text then
      ['-', '1', '0', '0'] ++ takeUntilCh '/' (pySplitAfter slashCLit text)
    else
      let username := takeUntilCh '?' (takeUntilCh '/' (pySplitAfter tmeLit text))
      if ['@'].isPrefixOf username then username else '@' :: username
  else
    if !(['-'].isPrefixOf text) && !(['@'].isPrefixOf text) then '@' :: text
    else text

/-! ### Background runner registries (from `main.py`) -/

/-- An entry of `userbot_tasks` (an `asyncio.Task`; only completion
status is observable here). -/
structure TaskEntry where
  done : Bool
deriving DecidableEq, Repr

/-- An entry of `userbot_clients`. -/
structure UClient where
  connected : Bool
deriving DecidableEq, Repr

/-- The module-level registries of `main.py` plus the session-file
directory. -/
structure World where
  tasks : Nat → Option TaskEntry
  clients : Nat → Option UClient
  startTimes : Nat → Option Nat
  sessionFile : Nat → Bool

/-- Pointwise update of a registry map. -/
def updF {α : Type} (f : Nat → Option α) (u : Nat) (v : Option α) : Nat → Option α :=
  fun x => if x = u then v else f x

/-- Externally observable effects of starting a userbot. -/
inductive RunEffect where
  | staleDisconnect (u : Nat)
  | clientConstructed (u : Nat)
  | connectAttempt (u : Nat)
  | modulesLoaded (u : Nat)
deriving DecidableEq, Repr

/-- What the network does during `run_userbot_for_user`. -/
structure RunEnv where
  connectRes : Except Exn Unit
  authorized : Bool
  now : Nat

/-- `run_userbot_for_user`: abort before constructing a client when the
session file is missing; otherwise construct, register, connect, check
authorization (deleting an unauthorized session), load modules and stay
live in `run_until_disconnected` (the returned `Bool` is whether the
coroutine finished).  The `finally` block removes the `userbot_clients`
and `userbot_start_times` entries on every finished path. -/
def run_userbot_for_user (w : World) (u : Nat) (env : RunEnv) :
    World × Bool × List RunEffect :=
  if !(w.sessionFile u) then (w, true, [])
  else
    let w1 : World :=
      { w with clients := updF w.clients u (some { connected := false })
               startTimes := updF w.startTimes u (some env.now) }
    match env.connectRes with
    | .error _ =>
      ({ w1 with clients := updF w1.clients u none
                 startTimes := updF w1.startTimes u none },
       true, [.clientConstructed u, .connectAttempt u])
    | .ok _ =>
      let w2 : World := { w1 with clients := updF w1.clients u (some { connected := true }) }
      if !env.authorized then
        ({ w2 with clients := updF w2.clients u none
                   startTimes := updF w2.startTimes u none
                   sessionFile := fun x => if x = u then false else w2.sessionFile x },
         true, [.clientConstructed u, .connectAttempt u])
      else
        (w2, false, [.clientConstructed u, .connectAttempt u, .modulesLoaded u])

/-- `start_userbot_for_user_background`: no-op when a task entry exists
and is not done; otherwise disconnect/remove a stale client entry,
create the task and (cooperative scheduling) run it to its first
long-lived suspension or completion, recording its completion status in
`userbot_tasks`. -/
def start_userbot_for_user_background (w : World) (u : Nat) (env : RunEnv) :
    World × List RunEffect :=
  if (match w.tasks u with | some t => !t.done | none => false) then (w, [])
  else
    let staleRes : World × List RunEffect :=
      match w.clients u with
      | some c =>
        ({ w with clients := updF w.clients u none },
         if c.connected then [.staleDisconnect u] else [])
      | none => (w, [])
    let w2 : World := { staleRes.1 with tasks := updF staleRes.1.tasks u (some { done := false }) }
    let r := run_userbot_for_user w2 u env
    ({ r.1 with tasks := updF r.1.tasks u (some { done := r.2.1 }) }, staleRes.2 ++ r.2.2)

/-! ### Concrete fixtures used by counterexamples and witnesses -/

/-- A network environment in which every call succeeds. -/
def okEnv : NetEnv :=
  { connectStart := .ok (), sendCodeStart := .ok "hash1"
    isConnected := true, connect := .ok (), signIn := .ok ()
    resend := .ok "hash2", signInPwd := .ok ()
    getMe := .ok (1, "Alice", none, none, some "998901234567")
    hasSession := true, saveRes := .ok (), discRes := .ok () }

/-- A `SessionCreator` mid-flow: client open, phone and challenge hash
held, not yet authorized. -/
def sc0 : SessionCreatorSt :=
  { hasClient := true, phone_number := some "+998901234567"
    phone_code_hash := some "h1", authorized := false, sessionFile := true }

/-- Environment where `sign_in` reports the code invalid and the
automatic resend itself raises. -/
def envInvalidResendFail : NetEnv :=
  { okEnv with signIn := .error .phoneCodeInvalid, resend := .error (.other "resend failed") }

/-- Environment where `sign_in` reports the code invalid and the resend
succeeds with a fresh hash. -/
def envInvalidResendOk : NetEnv :=
  { okEnv with signIn := .error .phoneCodeInvalid, resend := .ok "h2" }

/-- Environment where `sign_in` reports the code expired and the resend
itself raises (the unrecoverable expired outcome). -/
def envExpiredUnrec : NetEnv :=
  { okEnv with signIn := .error .phoneCodeExpired, resend := .error (.other "resend failed") }

/-- Environment where `sign_in` reports that 2FA is required. -/
def env2fa : NetEnv := { okEnv with signIn := .error .sessionPasswordNeeded }

/-- Environment where `session.save()` inside `disconnect` raises. -/
def envSaveFail : NetEnv := { okEnv with saveRes := .error (.other "database is locked") }

/-- Registry world with one not-yet-finished task for every user. -/
def wRunning : World :=
  { tasks := fun _ => some { done := false }, clients := fun _ => none
    startTimes := fun _ => none, sessionFile := fun _ => true }

/-- Empty registry world without session files. -/
def wEmpty : World :=
  { tasks := fun _ => none, clients := fun _ => none
    startTimes := fun _ => none, sessionFile := fun _ => false }

/-- Userbot environment where connect succeeds and the session is
authorized. -/
def runEnv0 : RunEnv := { connectRes := .ok (), authorized := true, now := 5 }

/-! ### C1 -/

/-- C1 counterexample: `disconnect` has no try/except, so an exception
raised by `client.session.save()` propagates out of the Session Manager
operation (the claim says no raw exception ever propagates). -/
theorem C1_counterexample :
    sc_disconnect sc0 envSaveFail = .error (.other "database is locked") := rfl

/-- C1 (amended): `start_login`, `verify_code`, `verify_2fa` and
`get_user_info` catch every exception of the underlying library and
return a result (`.ok`) for every input and environment; `disconnect`
is not covered. -/
theorem C1_theorem (sc : SessionCreatorSt) (env : NetEnv) (phone code : String) :
    (∃ r, start_login sc env phone = .ok r) ∧
    (∃ r, verify_code sc env code = .ok r) ∧
    (∃ r, verify_2fa sc env = .ok r) ∧
    (∃ r, get_user_info sc env = .ok r) := by
  refine ⟨?_, ?_, ?_, ?_⟩
  · unfold start_login
    split <;> exact ⟨_, rfl⟩
  · unfold verify_code
    repeat' first
      | exact ⟨_, rfl⟩
      | split
      | dsimp only
  · unfold verify_2fa
    split
    · exact ⟨_, rfl⟩
    · split <;> exact ⟨_, rfl⟩
  · unfold get_user_info
    split
    · exact ⟨_, rfl⟩
    · split <;> exact ⟨_, rfl⟩

/-! ### C2 -/

/-- C2 counterexample: when the network reports the code invalid and the
automatic resend also raises, the stored challenge token is NOT replaced
and the message does not report a fresh code (the claim asserts both
unconditionally for the invalid/expired outcome). -/
theorem C2_counterexample :
    verify_code sc0 envInvalidResendFail "42198" =
      .ok (sc0, (false, msgInvalidRetry, false), [.signIn, .sendCode]) ∧
    msgInvalidRetry ≠ msgInvalidResent ∧ msgInvalidRetry ≠ msgExpiredResent ∧
    sc0.phone_code_hash = some "h1" := by
  refine ⟨rfl, by decide, by decide, rfl⟩

/-- A code whose digit-filter is nonempty contains a digit. -/
lemma digits_mem_of_ne_nil (code : String)
    (hd : code.toList.filter Char.isDigit ≠ []) :
    ∃ x ∈ code.toList, x.isDigit = true := by
  rcases List.exists_mem_of_ne_nil _ hd with ⟨x, hx⟩
  rcases List.mem_filter.mp hx with ⟨h1, h2⟩
  exact ⟨x, h1, h2⟩

/-- C2 (amended): on an invalid or expired code, `verify_code` requests
a new code and — provided the resend succeeds — replaces the stored
challenge token with the newly issued one, keeps the phone number, and
returns a failure result whose message reports that a fresh code was
sent. -/
theorem C2_theorem (sc : SessionCreatorSt) (env : NetEnv) (code h' : String)
    (hc : sc.hasClient = true) (hp : truthyStr sc.phone_number = true)
    (hh : truthyStr sc.phone_code_hash = true)
    (hd : code.toList.filter Char.isDigit ≠ [])
    (hconn : env.isConnected = true)
    (hsign : env.signIn = .error .phoneCodeInvalid ∨ env.signIn = .error .phoneCodeExpired)
    (hres : env.resend = .ok h') :
    (env.signIn = .error .phoneCodeInvalid ∧
      verify_code sc env code =
        .ok ({ sc with phone_code_hash := some h' }, (false, msgInvalidResent, false),
          [.signIn, .sendCode])) ∨
    (env.signIn = .error .phoneCodeExpired ∧
      verify_code sc env code =
        .ok ({ sc with phone_code_hash := some h' }, (false, msgExpiredResent, false),
          [.signIn, .sendCode])) := by
  rcases hsign with h | h
  · left
    refine ⟨h, ?_⟩
    unfold verify_code tryVerify verifyExcHandler
    simp [hc, hp, hh, hconn, h, hres]
    exact digits_mem_of_ne_nil code hd
  · right
    refine ⟨h, ?_⟩
    unfold verify_code tryVerify verifyExcHandler
    simp [hc, hp, hh, hconn, h, hres]
    exact digits_mem_of_ne_nil code hd

/-- C2 witness: concrete invalid-code step with a successful resend. -/
theorem C2_witness :
    verify_code sc0 envInvalidResendOk "42198" =
      .ok ({ sc0 with phone_code_hash := some "h2" }, (false, msgInvalidResent, false),
        [.signIn, .sendCode]) := by
  rcases C2_theorem sc0 envInvalidResendOk "42198" "h2" rfl rfl rfl (by decide) rfl
    (Or.inl rfl) rfl with ⟨_, h⟩ | ⟨hbad, _⟩
  · exact h
  · exact absurd hbad (by simp [envInvalidResendOk, okEnv])

/-! ### C4 -/

/-- C4 (code bug): on the unrecoverable expired-code outcome the
failure message is the Uzbek `msgExpiredCancel`, which does not contain
the substring `"expired"` that `code_received` tests for, so the
conversation STAYS in AWAITING_CODE with the registry entry kept,
instead of disconnecting and terminating as the claim (and the
transition table) states. -/
theorem C4_theorem :
    verify_code sc0 envExpiredUnrec "42198" =
      .ok (sc0, (false, msgExpiredCancel, false), [.signIn, .sendCode]) ∧
    pyInLower "expired" msgExpiredCancel = false ∧
    convStep { state := .awaitingCode, creator := some sc0 }
        (.msg "42198" envExpiredUnrec) =
      { state := .awaitingCode, creator := some sc0 } := by
  refine ⟨rfl, by decide, ?_⟩
  show codeStep sc0 envExpiredUnrec "42198" = _
  unfold codeStep
  rw [show verify_code sc0 envExpiredUnrec "42198" =
      .ok (sc0, (false, msgExpiredCancel, false), [.signIn, .sendCode]) from rfl]
  simp [show pyInLower "expired" msgExpiredCancel = false by decide]

/-! ### C5 -/

/-- C5: a code whose characters strip to no digits makes `verify_code`
return a `(False, message, False)` validation failure with no network
call and no change to the stored phone number or challenge token (the
message is the session-ended guard text when the precondition guard
fires first, and the digits-only text otherwise). -/
theorem C5_theorem (sc : SessionCreatorSt) (env : NetEnv) (code : String)
    (h : code.toList.filter Char.isDigit = []) :
    verify_code sc env code =
      .ok (sc,
        (false,
          (if sc.hasClient && truthyStr sc.phone_number && truthyStr sc.phone_code_hash
            then msgDigitsOnly else msgSessionEnded),
          false),
        []) := by
  unfold verify_code
  split
  · rename_i hgf
    have hg : (sc.hasClient && truthyStr sc.phone_number && truthyStr sc.phone_code_hash) = false := by
      revert hgf
      cases sc.hasClient && truthyStr sc.phone_number && truthyStr sc.phone_code_hash <;> simp
    rw [hg]
    rfl
  · rename_i hgt
    have hg : (sc.hasClient && truthyStr sc.phone_number && truthyStr sc.phone_code_hash) = true := by
      revert hgt
      cases sc.hasClient && truthyStr sc.phone_number && truthyStr sc.phone_code_hash <;> simp
    rw [hg, h]
    rfl

/-- C5 witness: `"abc"` on a mid-flow creator is rejected locally. -/
theorem C5_witness :
    verify_code sc0 okEnv "abc" = .ok (sc0, (false, msgDigitsOnly, false), []) := by
  have := C5_theorem sc0 okEnv "abc" (by decide)
  simpa [sc0] using this

/-! ### C6 -/

/-- C6: when `sign_in` raises `SessionPasswordNeededError`,
`verify_code` returns success with the needs-2FA flag, changes no
creator state (no credential), and the conversation moves to
AWAITING_2FA. -/
theorem C6_theorem (sc : SessionCreatorSt) (env : NetEnv) (code : String)
    (hc : sc.hasClient = true) (hp : truthyStr sc.phone_number = true)
    (hh : truthyStr sc.phone_code_hash = true)
    (hd : code.toList.filter Char.isDigit ≠ [])
    (hconn : env.isConnected = true)
    (hsign : env.signIn = .error .sessionPasswordNeeded)
    (hauth : sc.authorized = false) :
    verify_code sc env code = .ok (sc, (true, msg2faNeeded, true), [.signIn]) ∧
    convStep { state := .awaitingCode, creator := some sc } (.msg code env) =
      { state := .awaiting2fa, creator := some sc } ∧
    sc.authorized = false := by
  have hv : verify_code sc env code = .ok (sc, (true, msg2faNeeded, true), [.signIn]) := by
    unfold verify_code tryVerify verifyExcHandler
    simp [hc, hp, hh, hconn, hsign]
    exact digits_mem_of_ne_nil code hd
  refine ⟨hv, ?_, hauth⟩
  show codeStep sc env code = _
  unfold codeStep
  rw [hv]
  rfl

/-- C6 witness: concrete needs-2FA step. -/
theorem C6_witness :
    verify_code sc0 env2fa "42198" = .ok (sc0, (true, msg2faNeeded, true), [.signIn]) ∧
    convStep { state := .awaitingCode, creator := some sc0 } (.msg "42198" env2fa) =
      { state := .awaiting2fa, creator := some sc0 } ∧
    sc0.authorized = false :=
  C6_theorem sc0 env2fa "42198" rfl rfl rfl (by decide) rfl rfl rfl

/-! ### C7 -/

/-- C7: starting the background userbot while this user's task entry
exists and is not done is a no-op — the registries are returned
untouched and no effect (no stale disconnect, no client construction,
no connection) is performed. -/
theorem C7_theorem (w : World) (u : Nat) (env : RunEnv) (t : TaskEntry)
    (ht : w.tasks u = some t) (hd : t.done = false) :
    start_userbot_for_user_background w u env = (w, []) := by
  unfold start_userbot_for_user_background
  simp [ht, hd]

/-- C7 witness: concrete already-running no-op. -/
theorem C7_witness :
    start_userbot_for_user_background wRunning 3 runEnv0 = (wRunning, []) :=
  C7_theorem wRunning 3 runEnv0 { done := false } rfl rfl

/-! ### C8 -/

/-- C8 counterexample: starting for a user without a session file is
NOT a no-op on `userbot_tasks` — a (immediately finished) task entry is
stored for that user. -/
theorem C8_counterexample :
    (start_userbot_for_user_background wEmpty 7 runEnv0).1.tasks 7 ≠ wEmpty.tasks 7 := by
  decide

/-- C8 (amended): with no session file (and no live task or stale
client entry for the user), starting the background userbot constructs
no client, attempts no connection, performs no effect at all, and
leaves `userbot_clients`, `userbot_start_times`, the session files and
every other user's task entry unchanged; the one change is that
`userbot_tasks[u]` now holds a task that finished immediately. -/
theorem C8_theorem (w : World) (u : Nat) (env : RunEnv)
    (hs : w.sessionFile u = false) (hcl : w.clients u = none)
    (ht : w.tasks u = none ∨ w.tasks u = some { done := true }) :
    (start_userbot_for_user_background w u env).2 = [] ∧
    (start_userbot_for_user_background w u env).1.clients = w.clients ∧
    (start_userbot_for_user_background w u env).1.startTimes = w.startTimes ∧
    (start_userbot_for_user_background w u env).1.sessionFile = w.sessionFile ∧
    (start_userbot_for_user_background w u env).1.tasks u = some { done := true } ∧
    ∀ v, v ≠ u → (start_userbot_for_user_background w u env).1.tasks v = w.tasks v := by
  have hrun : start_userbot_for_user_background w u env =
      ({ w with tasks := updF (updF w.tasks u (some { done := false })) u (some { done := true }) },
       []) := by
    unfold start_userbot_for_user_background run_userbot_for_user
    rcases ht with h | h <;> simp [h, hcl, hs]
  rw [hrun]
  refine ⟨rfl, rfl, rfl, rfl, by simp [updF], ?_⟩
  intro v hv
  simp [updF, hv]

/-- C8 witness: instance of the amended statement at a concrete world,
including frame preservation for a different user. -/
theorem C8_witness :
    (start_userbot_for_user_background wEmpty 7 runEnv0).2 = [] ∧
    (start_userbot_for_user_background wEmpty 7 runEnv0).1.tasks 7 = some { done := true } ∧
    (start_userbot_for_user_background wEmpty 7 runEnv0).1.tasks 8 = wEmpty.tasks 8 :=
  ⟨(C8_theorem wEmpty 7 runEnv0 rfl rfl (Or.inl rfl)).1,
   (C8_theorem wEmpty 7 runEnv0 rfl rfl (Or.inl rfl)).2.2.2.2.1,
   (C8_theorem wEmpty 7 runEnv0 rfl rfl (Or.inl rfl)).2.2.2.2.2 8 (by decide)⟩

/-! ### C3 -/

/-- The cancel fallback terminates the conversation or (when
`disconnect` raises) leaves the state where it was. -/
lemma cancelStep_cases (s : ConvState) (sc : SessionCreatorSt) (env : NetEnv) :
    (cancelStep s sc env).state = .terminated ∨ (cancelStep s sc env).state = s := by
  unfold cancelStep
  split <;> simp

/-- `phone_received` leads only to AWAITING_CODE, END, or (on a handler
crash) AWAITING_PHONE. -/
lemma phoneStep_cases (sc : SessionCreatorSt) (env : NetEnv) (t : String) :
    (phoneStep sc env t).state = .awaitingPhone ∨
    (phoneStep sc env t).state = .awaitingCode ∨
    (phoneStep sc env t).state = .terminated := by
  unfold phoneStep
  repeat' first
    | (left; rfl)
    | (right; left; rfl)
    | (right; right; rfl)
    | split

/-- `code_received` leads only to AWAITING_CODE, AWAITING_2FA or END. -/
lemma codeStep_cases (sc : SessionCreatorSt) (env : NetEnv) (t : String) :
    (codeStep sc env t).state = .awaitingCode ∨
    (codeStep sc env t).state = .awaiting2fa ∨
    (codeStep sc env t).state = .terminated := by
  unfold codeStep
  repeat' first
    | (left; rfl)
    | (right; left; rfl)
    | (right; right; rfl)
    | split

/-- `password_received` leads only to AWAITING_2FA or END. -/
lemma pwdStep_cases (sc : SessionCreatorSt) (env : NetEnv) :
    (pwdStep sc env).state = .awaiting2fa ∨ (pwdStep sc env).state = .terminated := by
  unfold pwdStep
  repeat' first
    | (left; rfl)
    | (right; rfl)
    | split

/-- C3: every single step of the login conversation either stays in
place, advances forward, or terminates: the next state is always in
`allowedNext` of the current state (in particular AWAITING_PHONE never
jumps to AWAITING_2FA) and the progress rank never decreases. -/
theorem C3_theorem (w : ConvWorld) (e : Event) :
    (convStep w e).state ∈ allowedNext w.state ∧
    convRank w.state ≤ convRank (convStep w e).state := by
  obtain ⟨s, cr⟩ := w
  cases s with
  | terminated =>
    cases e <;> exact ⟨by simp [convStep, allowedNext], by simp [convStep]⟩
  | awaitingPhone =>
    cases e with
    | cancel env =>
      rcases cancelStep_cases .awaitingPhone
          (getCreator { state := .awaitingPhone, creator := cr }) env with h | h <;>
        refine ⟨?_, ?_⟩ <;>
        simp_all [convStep, allowedNext, convRank]
    | msg t env =>
      rcases phoneStep_cases (getCreator { state := .awaitingPhone, creator := cr }) env t
          with h | h | h <;>
        refine ⟨?_, ?_⟩ <;>
        simp_all [convStep, allowedNext, convRank]
  | awaitingCode =>
    cases e with
    | cancel env =>
      rcases cancelStep_cases .awaitingCode
          (getCreator { state := .awaitingCode, creator := cr }) env with h | h <;>
        refine ⟨?_, ?_⟩ <;>
        simp_all [convStep, allowedNext, convRank]
    | msg t env =>
      rcases codeStep_cases (getCreator { state := .awaitingCode, creator := cr }) env t
          with h | h | h <;>
        refine ⟨?_, ?_⟩ <;>
        simp_all [convStep, allowedNext, convRank]
  | awaiting2fa =>
    cases e with
    | cancel env =>
      rcases cancelStep_cases .awaiting2fa
          (getCreator { state := .awaiting2fa, creator := cr }) env with h | h <;>
        refine ⟨?_, ?_⟩ <;>
        simp_all [convStep, allowedNext, convRank]
    | msg t env =>
      rcases pwdStep_cases (getCreator { state := .awaiting2fa, creator := cr }) env
          with h | h <;>
        refine ⟨?_, ?_⟩ <;>
        simp_all [convStep, allowedNext, convRank]

/-! ### C9 -/

/-- The `bot_errors` accumulator of the subscription loop only grows. -/
lemma subFold_bot_extend (env : String → MemberRes) (l : List String)
    (acc : List String × List String) :
    ∃ s, (l.foldl (subLoop env) acc).2 = acc.2 ++ s := by
  induction l generalizing acc with
  | nil => exact ⟨[], by simp⟩
  | cons a l ih =>
    rw [List.foldl_cons]
    rcases ih (subLoop env acc a) with ⟨s, hs⟩
    rw [hs]
    unfold subLoop
    split
    · split
      · exact ⟨s, rfl⟩
      · exact ⟨s, rfl⟩
    · split
      · exact ⟨a :: s, by simp⟩
      · exact ⟨s, rfl⟩

/-- If some channel of the list raises a bot-side error, the
`bot_errors` accumulator ends up nonempty. -/
lemma subFold_bot_ne_nil (env : String → MemberRes) (ch m : String)
    (hm : env ch = .exc m) (hb : isBotSideError m = true) :
    ∀ (l : List String) (acc : List String × List String), ch ∈ l →
      (l.foldl (subLoop env) acc).2 ≠ [] := by
  intro l
  induction l with
  | nil => intro acc h; cases h
  | cons a l ih =>
    intro acc hch
    rw [List.foldl_cons]
    rcases List.mem_cons.mp hch with h | h
    · subst h
      rcases subFold_bot_extend env l (subLoop env acc ch) with ⟨s, hs⟩
      rw [hs]
      have hstep : (subLoop env acc ch).2 = acc.2 ++ [ch] := by
        unfold subLoop
        rw [hm]
        simp [hb]
      rw [hstep]
      simp
    · exact ih (subLoop env acc a) h

/-- C9: `check_subscription` answers `(True, None)` whenever the
configured channel list is empty, and whenever at least one configured
channel's membership check raises a chat-not-found / insufficient-rights
error — regardless of the user's membership in the other channels. -/
theorem C9_theorem (channels : List String) (env : String → MemberRes)
    (h : channels = [] ∨
      ∃ ch ∈ channels, ∃ m, env ch = .exc m ∧ isBotSideError m = true) :
    check_subscription channels env = (true, none) := by
  rcases h with h | ⟨ch, hch, m, hm, hb⟩
  · subst h; rfl
  · unfold check_subscription
    have hne : channels.isEmpty = false := by
      cases channels with
      | nil => cases hch
      | cons a l => rfl
    have h2 := subFold_bot_ne_nil env ch m hm hb channels ([], []) hch
    have h2' : (channels.foldl (subLoop env) ([], [])).2.isEmpty = false := by
      cases hfil : (channels.foldl (subLoop env) ([], [])).2 with
      | nil => exact absurd hfil h2
      | cons x xs => rfl
    rw [hne]
    simp only [Bool.false_eq_true, if_false]
    rw [h2']
    rfl

/-- Membership oracle for the C9 witness: the first channel raises
chat-not-found, the second reports the user as a non-member. -/
def envC9 : String → MemberRes := fun ch =>
  if ch = "@chanA" then .exc "Bad Request: chat not found" else .status "left"

/-- C9 witness: one bot-side error channel plus one channel the user is
verifiably not a member of still yields `(True, None)`. -/
theorem C9_witness : check_subscription ["@chanA", "@chanB"] envC9 = (true, none) :=
  C9_theorem ["@chanA", "@chanB"] envC9
    (Or.inr ⟨"@chanA", by simp, "Bad Request: chat not found", rfl, by decide⟩)

/-! ### C10 -/

/-- `dropWhile` is the identity when no element satisfies the
predicate. -/
lemma dropWhile_eq_self_of_none (p : Char → Bool) (l : List Char)
    (h : ∀ c ∈ l, p c = false) : l.dropWhile p = l := by
  cases l with
  | nil => rfl
  | cons a l =>
    rw [List.dropWhile_cons, h a (by simp)]
    simp

/-- `strip` is the identity on whitespace-free strings. -/
lemma pyStrip_eq_self (l : List Char) (h : ∀ c ∈ l, c.isWhitespace = false) :
    pyStrip l = l := by
  unfold pyStrip
  rw [dropWhile_eq_self_of_none _ _ h]
  rw [dropWhile_eq_self_of_none]
  · exact List.reverse_reverse l
  · intro c hc
    exact h c (List.mem_reverse.mp hc)

/-- Members of `takeUntilCh` come from the original list. -/
lemma mem_of_mem_takeUntilCh {x c : Char} {l : List Char}
    (h : x ∈ takeUntilCh c l) : x ∈ l := by
  unfold takeUntilCh at h
  exact (List.takeWhile_sublist _).subset h

/-- The cut character never survives `takeUntilCh`. -/
lemma not_mem_takeUntilCh (c : Char) (l : List Char) : c ∉ takeUntilCh c l := by
  intro h
  unfold takeUntilCh at h
  have := List.mem_takeWhile_imp h
  simp at this

/-- Members of `pySplitAfter` come from the original list. -/
lemma mem_of_mem_pySplitAfter {x : Char} {sep l : List Char}
    (h : x ∈ pySplitAfter sep l) : x ∈ l := by
  induction l with
  | nil =>
    unfold pySplitAfter at h
    cases h
  | cons a rest ih =>
    unfold pySplitAfter at h
    by_cases hp : sep.isPrefixOf (a :: rest) = true
    · rw [if_pos hp] at h
      exact List.mem_of_mem_drop h
    · rw [if_neg hp] at h
      exact List.mem_cons_of_mem a (ih h)

/-- A substring occurrence forces every character of the separator to
occur in the list. -/
lemma mem_sep_of_pyContains {sep : List Char} :
    ∀ {l : List Char}, pyContains sep l = true → ∀ c ∈ sep, c ∈ l := by
  intro l
  induction l with
  | nil =>
    intro h c hc
    unfold pyContains at h
    rw [List.isEmpty_iff] at h
    subst h
    cases hc
  | cons a rest ih =>
    intro h c hc
    unfold pyContains at h
    rcases Bool.or_eq_true_iff.mp h with hp | hr
    · have hpre : sep <+: a :: rest := List.isPrefixOf_iff_prefix.mp hp
      exact hpre.sublist.subset hc
    · exact List.mem_cons_of_mem a (ih hr c hc)

/-- Absence of one separator character refutes a substring occurrence. -/
lemma pyContains_eq_false_of_not_mem {sep l : List Char} {c : Char}
    (hc : c ∈ sep) (hl : c ∉ l) : pyContains sep l = false := by
  cases h : pyContains sep l
  · rfl
  · exact absurd (mem_sep_of_pyContains h c hc) hl

/-- `parse_channel_id` fixes any whitespace-free value that does not
contain `t.me/` and already starts with `-` or `@`. -/
lemma parse_fixed (r : List Char) (hst : pyStrip r = r)
    (hni : pyContains tmeLit r = false)
    (hpre : ['-'].isPrefixOf r = true ∨ ['@'].isPrefixOf r = true) :
    parse_channel_id r = r := by
  unfold parse_channel_id
  rcases hpre with h | h <;> simp [hst, hni, h]

/-- C10 counterexample: `parse_channel_id` is not idempotent — for
`"t.me/c/123 /x"` the first pass returns `"-100123 "` with a trailing
space and the second pass strips it. -/
theorem C10_counterexample :
    parse_channel_id (parse_channel_id ("t.me/c/123 /x".toList)) ≠
      parse_channel_id ("t.me/c/123 /x".toList) := by
  decide

/-- C10 (amended): on every input without whitespace characters,
`parse_channel_id` is idempotent; and its output always is
`@`-prefixed, `-100`-prefixed, or the trimmed original. -/
theorem C10_theorem (s : List Char) (hws : ∀ c ∈ s, c.isWhitespace = false) :
    parse_channel_id (parse_channel_id s) = parse_channel_id s ∧
    (['@'].isPrefixOf (parse_channel_id s) = true ∨
     ['-'].isPrefixOf (parse_channel_id s) = true ∨
     parse_channel_id s = pyStrip s) := by
  have hst : pyStrip s = s := pyStrip_eq_self s hws
  by_cases h1 : pyContains tmeLit s = true
  · by_cases h2 : pyContains slashCLit s = true
    · have hr : parse_channel_id s =
          '-' :: '1' :: '0' :: '0' :: takeUntilCh '/' (pySplitAfter slashCLit s) := by
        unfold parse_channel_id
        rw [hst]
        simp [h1, h2]
      have hslash : '/' ∉ '-' :: '1' :: '0' :: '0' ::
          takeUntilCh '/' (pySplitAfter slashCLit s) := by
        intro hmem
        simp only [List.mem_cons] at hmem
        rcases hmem with h | h | h | h | h
        · exact absurd h (by decide)
        · exact absurd h (by decide)
        · exact absurd h (by decide)
        · exact absurd h (by decide)
        · exact not_mem_takeUntilCh '/' _ h
      have hws' : ∀ c ∈ '-' :: '1' :: '0' :: '0' ::
          takeUntilCh '/' (pySplitAfter slashCLit s), c.isWhitespace = false := by
        intro c hc
        simp only [List.mem_cons] at hc
        rcases hc with rfl | rfl | rfl | rfl | hc
        · decide
        · decide
        · decide
        · decide
        · exact hws c (mem_of_mem_pySplitAfter (mem_of_mem_takeUntilCh hc))
      have hpre : ['-'].isPrefixOf ('-' :: '1' :: '0' :: '0' ::
          takeUntilCh '/' (pySplitAfter slashCLit s)) = true := by
        simp [List.isPrefixOf]
      have hfix := parse_fixed _ (pyStrip_eq_self _ hws')
        (pyContains_eq_false_of_not_mem (show '/' ∈ tmeLit by decide) hslash) (Or.inl hpre)
      rw [hr]
      exact ⟨hfix, Or.inr (Or.inl hpre)⟩
    · by_cases h3 : ['@'].isPrefixOf
          (takeUntilCh '?' (takeUntilCh '/' (pySplitAfter tmeLit s))) = true
      · have hr : parse_channel_id s =
            takeUntilCh '?' (takeUntilCh '/' (pySplitAfter tmeLit s)) := by
          unfold parse_channel_id
          rw [hst]
          simp [h1, h2, h3]
        have hslash : '/' ∉ takeUntilCh '?' (takeUntilCh '/' (pySplitAfter tmeLit s)) := by
          intro hmem
          exact not_mem_takeUntilCh '/' _ (mem_of_mem_takeUntilCh hmem)
        have hws' : ∀ c ∈ takeUntilCh '?' (takeUntilCh '/' (pySplitAfter tmeLit s)),
            c.isWhitespace = false := fun c hc =>
          hws c (mem_of_mem_pySplitAfter (mem_of_mem_takeUntilCh (mem_of_mem_takeUntilCh hc)))
        have hfix := parse_fixed _ (pyStrip_eq_self _ hws')
          (pyContains_eq_false_of_not_mem (show '/' ∈ tmeLit by decide) hslash) (Or.inr h3)
        rw [hr]
        exact ⟨hfix, Or.inl h3⟩
      · have hr : parse_channel_id s =
            '@' :: takeUntilCh '?' (takeUntilCh '/' (pySplitAfter tmeLit s)) := by
          unfold parse_channel_id
          rw [hst]
          simp [h1, h2, h3]
        have hslash : '/' ∉ '@' :: takeUntilCh '?' (takeUntilCh '/' (pySplitAfter tmeLit s)) := by
          intro hmem
          rcases List.mem_cons.mp hmem with h | h
          · exact absurd h (by decide)
          · exact not_mem_takeUntilCh '/' _ (mem_of_mem_takeUntilCh h)
        have hws' : ∀ c ∈ '@' :: takeUntilCh '?' (takeUntilCh '/' (pySplitAfter tmeLit s)),
            c.isWhitespace = false := by
          intro c hc
          rcases List.mem_cons.mp hc with rfl | hc
          · decide
          · exact hws c (mem_of_mem_pySplitAfter (mem_of_mem_takeUntilCh (mem_of_mem_takeUntilCh hc)))
        have hpre : ['@'].isPrefixOf
            ('@' :: takeUntilCh '?' (takeUntilCh '/' (pySplitAfter tmeLit s))) = true := by
          simp [List.isPrefixOf]
        have hfix := parse_fixed _ (pyStrip_eq_self _ hws')
          (pyContains_eq_false_of_not_mem (show '/' ∈ tmeLit by decide) hslash) (Or.inr hpre)
        rw [hr]
        exact ⟨hfix, Or.inl hpre⟩
  · have h1' : pyContains tmeLit s = false := by
      revert h1
      cases pyContains tmeLit s <;> simp
    by_cases h4 : (!(['-'].isPrefixOf s) && !(['@'].isPrefixOf s)) = true
    · have hr : parse_channel_id s = '@' :: s := by
        unfold parse_channel_id
        simp [hst, h1', h4]
      have hnotme : pyContains tmeLit ('@' :: s) = false := by
        unfold pyContains
        rw [h1']
        simp [tmeLit, List.isPrefixOf]
      have hws' : ∀ c ∈ '@' :: s, c.isWhitespace = false := by
        intro c hc
        rcases List.mem_cons.mp hc with rfl | hc
        · decide
        · exact hws c hc
      have hpre : ['@'].isPrefixOf ('@' :: s) = true := by
        simp [List.isPrefixOf]
      have hfix := parse_fixed _ (pyStrip_eq_self _ hws') hnotme (Or.inr hpre)
      rw [hr]
      exact ⟨hfix, Or.inl hpre⟩
    · have hr : parse_channel_id s = s := by
        unfold parse_channel_id
        simp [hst, h1', h4]
      have hpre : ['-'].isPrefixOf s = true ∨ ['@'].isPrefixOf s = true := by
        revert h4
        cases ['-'].isPrefixOf s <;> cases ['@'].isPrefixOf s <;> simp
      have hfix := parse_fixed s hst h1' hpre
      rw [hr]
      exact ⟨hfix, Or.inr (Or.inr hst.symm)⟩

/-- C10 witness: idempotence and normal form on a concrete
whitespace-free private-channel link. -/
theorem C10_witness :
    parse_channel_id (parse_channel_id ("t.me/c/999".toList)) =
      parse_channel_id ("t.me/c/999".toList) ∧
    (['@'].isPrefixOf (parse_channel_id ("t.me/c/999".toList)) = true ∨
     ['-'].isPrefixOf (parse_channel_id ("t.me/c/999".toList)) = true ∨
     parse_channel_id ("t.me/c/999".toList) = pyStrip ("t.me/c/999".toList)) :=
  C10_theorem ("t.me/c/999".toList) (by decide)
